import Mathlib

/-
Verification of the hybrid retrieval and conversation pipeline of the
RBI regulatory chatbot (chatbot_backend.py, hybrid_retrieval.py,
kg_retrieval.py, prompt_builder.py).

Python strings are modelled as Lean strings; the Python string methods
used by the code (lower, strip, split, startswith, the in operator,
replace, slicing) are re-implemented below over the character list of
the string, structurally, so that concrete runs reduce in the kernel.
External collaborators (the Groq language model, the SBERT embedding
similarity, the Neo4j graph driver, the chunk corpus) are passed in as
oracle parameters; the iteration order that Python gives a set when the
code evaluates list(set(...)) is likewise passed in as a parameter,
constrained to produce some ordering of the distinct elements.
-/

namespace ReguGraph

/-- Python s.lower() restricted to the ASCII range used by the code. -/
def pyLower (s : String) : String := ⟨s.data.map Char.toLower⟩

/-- Python s.strip(): drop leading and trailing whitespace. -/
def pyStrip (s : String) : String :=
  ⟨((s.data.dropWhile Char.isWhitespace).reverse.dropWhile Char.isWhitespace).reverse⟩

/-- Helper for substring search over character lists. -/
def subAt : List Char → List Char → Bool
  | [], needle => needle.isEmpty
  | c :: t, needle => needle.isPrefixOf (c :: t) || subAt t needle

/-- Python needle in hay (substring containment). -/
def strHasSub (hay needle : String) : Bool := subAt hay.data needle.data

/-- Python s.startswith(pre). -/
def strStartsWith (s pre : String) : Bool := pre.data.isPrefixOf s.data

/-- Python sep.join(xs). -/
def strJoin (sep : String) (xs : List String) : String :=
  ⟨List.intercalate sep.data (xs.map String.data)⟩

/-- Helper for whitespace tokenisation; acc holds the current token reversed. -/
def wordsAux : List Char → List Char → List (List Char)
  | [], acc => if acc.isEmpty then [] else [acc.reverse]
  | c :: t, acc =>
    if c.isWhitespace then
      (if acc.isEmpty then wordsAux t [] else acc.reverse :: wordsAux t [])
    else wordsAux t (c :: acc)

/-- Python s.split() with no argument: split on whitespace runs, no empty tokens. -/
def pyWords (s : String) : List String := (wordsAux s.data []).map String.mk

/-- Python s[:n] (strings are indexed by code points in both languages). -/
def pyTake (s : String) (n : Nat) : String := ⟨s.data.take n⟩

/-- Helper for pyReplace: fuel-driven scan; each step consumes at least one
character, and the fuel starts at the length of the string, so the fuel
never runs out on the inputs pyReplace passes in. -/
def pyRepAux (pat rep : List Char) : Nat → List Char → List Char
  | _, [] => []
  | 0, s => s
  | fuel + 1, c :: t =>
    if !pat.isEmpty && pat.isPrefixOf (c :: t) then
      rep ++ pyRepAux pat rep fuel (t.drop (pat.length - 1))
    else c :: pyRepAux pat rep fuel t

/-- Python s.replace(pat, rep): replace every non-overlapping occurrence,
left to right. The code only ever calls it with the non-empty patterns
Chunk:: and Clause::, so the empty-pattern case is irrelevant here. -/
def pyReplace (s pat rep : String) : String :=
  ⟨pyRepAux pat.data rep.data s.data.length s.data⟩

/-- Decidable equality for Except results, so concrete runs of the fallible
operations can be checked by evaluation. -/
instance {ε α : Type} [DecidableEq ε] [DecidableEq α] : DecidableEq (Except ε α) := fun x y =>
  match x, y with
  | Except.ok a, Except.ok b =>
    match decEq a b with
    | isTrue h => isTrue (h ▸ rfl)
    | isFalse h => isFalse (fun he => h (Except.ok.inj he))
  | Except.error a, Except.error b =>
    match decEq a b with
    | isTrue h => isTrue (h ▸ rfl)
    | isFalse h => isFalse (fun he => h (Except.error.inj he))
  | Except.ok _, Except.error _ => isFalse (fun he => Except.noConfusion he)
  | Except.error _, Except.ok _ => isFalse (fun he => Except.noConfusion he)

/-- A JSON value as produced by the constrained intent-classifier reply:
the prompt demands a two-field object whose values are a string or null. -/
inductive JValue
  | jstr (s : String)
  | jnull
deriving DecidableEq

/-- A dynamic Python value as returned by llm_intent: a string or None. -/
inductive PyVal
  | str (s : String)
  | null
deriving DecidableEq

/-- Outcome of the language-model call plus response parsing inside
llm_intent (chatbot_backend.py lines 146-158): the Groq call raised, the
reply had no brace-delimited region, json.loads raised on that region, or
json.loads produced an object (an association list of fields). The first
three are indistinguishable downstream: exn and parseError are caught by
the except clause and noMatch falls through the if, all reaching the
keyword fallback at line 163. -/
inductive LLMOutcome
  | exn
  | noMatch
  | parseError
  | parsed (data : List (String × JValue))
deriving DecidableEq

/-- Python dict lookup on the parsed JSON object (keys are unique). -/
def jGet (d : List (String × JValue)) (k : String) : Option JValue :=
  (d.find? (fun p => p.1 == k)).map (fun p => p.2)

/-- Python data.get(k, dflt) where the stored value is a string or null. -/
def pyGetD (d : List (String × JValue)) (k dflt : String) : PyVal :=
  match jGet d k with
  | some (JValue.jstr s) => PyVal.str s
  | some JValue.jnull => PyVal.null
  | none => PyVal.str dflt

/-- Python data.get(k): missing key and stored null both give None. -/
def pyGetOpt (d : List (String × JValue)) (k : String) : PyVal :=
  match jGet d k with
  | some (JValue.jstr s) => PyVal.str s
  | _ => PyVal.null

/-- FOLLOWUP_PATTERNS of chatbot_backend.py. -/
def FOLLOWUP_PATTERNS : List String :=
  ["explain again", "repeat", "again", "clarify", "more clearly", "elaborate", "explain that"]

/-- The phrase test of is_followup: any configured phrase occurs as a raw
substring of the lower-cased, stripped question. -/
def hasFollowupPhrase (q : String) : Bool :=
  FOLLOWUP_PATTERNS.any (fun p => strHasSub (pyStrip (pyLower q)) p)

/-- is_followup of chatbot_backend.py lines 73-86. The SBERT cosine
similarity is an external collaborator, passed as the oracle sim; the
threshold 0.55 of the source is the rational 11/20. -/
def is_followup (sim : String → String → Rat) (prev q : String) : Bool :=
  if prev = "" then false
  else if hasFollowupPhrase q then true
  else if (pyWords q).length ≤ 4 then decide (mkRat 11 20 < sim prev q)
  else false

/-- TOPIC_KEYWORDS of chatbot_backend.py, in source (dict insertion) order. -/
def TOPIC_KEYWORDS : List (String × List String) :=
  [("DLG_Cap", ["dlg", "fldg", "first loss"]),
   ("Gold_Loan_LTV", ["gold", "ltv"]),
   ("ECL_Overview", ["ecl", "expected credit"]),
   ("KYC_Process", ["kyc"]),
   ("AML_Compliance", ["aml"]),
   ("Model_Governance_Framework", ["model governance"])]

/-- detect_topic_fallback of chatbot_backend.py lines 119-124. -/
def detect_topic_fallback (q : String) : String :=
  match TOPIC_KEYWORDS.find? (fun p => p.2.any (fun k => strHasSub (pyLower q) k)) with
  | some p => p.1
  | none => "DLG_Cap"

/-- The greeting shortcut test of llm_intent (line 131). -/
def isGreeting (ql : String) : Bool :=
  (["hi", "hello", "hey", "hii"] : List String).contains ql
    || (["hi ", "hello ", "hey "] : List String).any (fun p => strStartsWith ql p)

/-- The domain-keyword shortcut test of llm_intent (line 135). -/
def hasIntentKeyword (ql : String) : Bool :=
  (["rbi", "loan", "dlg", "fldg", "cap", "ltv", "kyc", "ecl"] : List String).any
    (fun k => strHasSub ql k)

/-- llm_intent of chatbot_backend.py lines 127-163, with the result of the
language-model call and its parsing abstracted as an LLMOutcome. On a
parsed object the code returns data.get with default rbi_query for the
intent and plain data.get for the topic; every failure outcome reaches the
keyword fallback of line 163. -/
def llm_intent (q : String) (resp : LLMOutcome) : PyVal × PyVal :=
  let ql := pyStrip (pyLower q)
  if isGreeting ql then (PyVal.str "chit_chat", PyVal.null)
  else if hasIntentKeyword ql then
    (PyVal.str "rbi_query", PyVal.str (detect_topic_fallback q))
  else
    match resp with
    | LLMOutcome.parsed data => (pyGetD data "intent" "rbi_query", pyGetOpt data "topic")
    | _ => (PyVal.str "rbi_query", PyVal.str (detect_topic_fallback q))

/-- A relation triple row as returned by the facts query of kg_retrieval.py
(source, relation, target, label). Label values the driver returns are
modelled as strings. -/
structure Fact where
  source : String
  relation : String
  target : String
  label : String
deriving DecidableEq

/-- get_kg_facts of kg_retrieval.py lines 40-60. The Neo4j round-trip is the
oracle driver; the early return on an empty identifier list never consults
it. A driver error models neo4j ServiceUnavailable. -/
def get_kg_facts (driver : List String → Except Unit (List Fact))
    (node_ids : List String) : Except Unit (List Fact) :=
  if node_ids.isEmpty then Except.ok [] else driver node_ids

/-- The identifier kinds the merger keeps (hybrid_retrieval.py lines 65-69). -/
def keepId (nid : String) : Bool :=
  strStartsWith nid "Chunk::" || strStartsWith nid "Clause::"

/-- The stripping applied to a kept identifier. -/
def stripId (nid : String) : String :=
  if strStartsWith nid "Chunk::" then pyReplace nid "Chunk::" ""
  else pyReplace nid "Clause::" ""

/-- The normalisation loop of hybrid_retrieve (lines 64-69): keep only
identifiers bearing one of the two kind markers, stripped. -/
def normalizedKg (kg_chunk_ids : List String) : List String :=
  kg_chunk_ids.filterMap (fun nid =>
    if strStartsWith nid "Chunk::" then some (pyReplace nid "Chunk::" "")
    else if strStartsWith nid "Clause::" then some (pyReplace nid "Clause::" "")
    else none)

/-- What CPython guarantees about list(set(xs)) for string elements: the
result lists each distinct element exactly once, in an order fixed by the
per-process hash seed. A PySetOrder is one such ordering function. -/
def PySetOrder (f : List String → List String) : Prop :=
  ∀ xs : List String, List.Perm (f xs) xs.dedup

/-- One concrete admissible set ordering: first-occurrence order. -/
def pySetKeep (xs : List String) : List String := xs.dedup

/-- Another concrete admissible set ordering: reversed first-occurrence
order, as a different hash seed may produce. -/
def pySetFlip (xs : List String) : List String := xs.dedup.reverse

/-- hybrid_retrieve of hybrid_retrieval.py lines 55-84. The graph lookup
result (get_topic_related_nodes), the vector search result (rag_search on
the query), the facts driver, the set ordering of this process, and the
in-memory id2text chunk map are all passed in; an error models the
collaborator being unreachable. -/
def hybrid_retrieve (kgRes : Except Unit (List String))
    (ragResults : List (String × String))
    (driver : List String → Except Unit (List Fact))
    (setOrd : List String → List String)
    (id2text : String → Option String) :
    Except Unit (List (String × String) × List Fact) :=
  match kgRes with
  | Except.error e => Except.error e
  | Except.ok kg_chunk_ids =>
    let merged_ids := setOrd (normalizedKg kg_chunk_ids ++ ragResults.map Prod.fst)
    match get_kg_facts driver (merged_ids.map (fun cid => "Chunk::" ++ cid)) with
    | Except.error e => Except.error e
    | Except.ok kg_facts =>
      Except.ok (merged_ids.map (fun cid => (cid, (id2text cid).getD "")), kg_facts)

/-- The grouping dict of build_prompt: append the label under its relation,
keeping dict insertion order, as grouped.setdefault(rel, []).append does. -/
def dictAppendLabel : List (String × List String) → String → String → List (String × List String)
  | [], rel, lab => [(rel, [lab])]
  | p :: t, rel, lab =>
    if p.1 = rel then (p.1, p.2 ++ [lab]) :: t else p :: dictAppendLabel t rel lab

/-- The grouped dict of build_prompt lines 9-12. -/
def groupFacts (kg_facts : List Fact) : List (String × List String) :=
  kg_facts.foldl (fun acc f => dictAppendLabel acc f.relation f.label) []

/-- build_prompt of prompt_builder.py. The per-relation duplicate removal of
line 16 is list(set(...)), so the ordering function of this process is a
parameter; everything else is a deterministic fold over the inputs. -/
def build_prompt (setOrd : List String → List String) (question : String)
    (chunks : List (String × String)) (kg_facts : List Fact) : String :=
  let grouped := (groupFacts kg_facts).map (fun p => (p.1, setOrd p.2))
  let kg_text := strJoin "\n" (grouped.map (fun p => p.1 ++ ": " ++ strJoin ", " p.2))
  let chunk_text := strJoin "\n\n"
    (chunks.map (fun p => "[" ++ p.1 ++ "]: " ++ pyTake p.2 1200))
  "\nYou are an RBI regulatory assistant.\n\nUser question:\n" ++ question ++
    "\n\n================ KG INFO ================\n" ++ kg_text ++
    "\n\n================ DOCUMENT EXCERPTS ================\n" ++ chunk_text ++
    "\n\n================ INSTRUCTIONS ================\n" ++
    "Answer STRICTLY using the above KG + document context.\n" ++
    "Do NOT hallucinate.\nIf information is missing, respond:\n" ++
    "\"I cannot find this information in the RBI documents.\"\n"

/-- The conversation_memory dict: an association list keyed by conversation
identifier, unique keys, insertion ordered. -/
abbrev Memory := List (String × String)

/-- get_last_reply: conversation_memory.get(cid, ""). -/
def memGet (m : Memory) (cid : String) : String :=
  match m.find? (fun p => p.1 == cid) with
  | some p => p.2
  | none => ""

/-- set_last_reply: dict assignment, replace in place or append. -/
def memSet (m : Memory) (cid v : String) : Memory :=
  match m with
  | [] => [(cid, v)]
  | p :: t => if p.1 = cid then (cid, v) :: t else p :: memSet t cid v

/-- clear_conversation: conversation_memory.pop(cid, None). -/
def memPop (m : Memory) (cid : String) : Memory :=
  m.filter (fun p => p.1 ≠ cid)

/-- The request body of the /ask operation. -/
structure AskReq where
  question : String
  conversation_id : Option String
  clear : Bool
deriving DecidableEq

/-- The response body of the /ask operation: conversation id, answer, the
chunks used as (id, preview) pairs, and the facts used. -/
structure AskResp where
  conversation_id : String
  answer : String
  chunks_used : List (String × String)
  kg_facts : List Fact
deriving DecidableEq

/-- How a request can fail: the empty-question HTTPException(400), or an
uncaught collaborator failure escaping the handler. -/
inductive AskErr
  | badRequest
  | retrievalDown
deriving DecidableEq

/-- The external collaborators of one request, as oracles: the parsed
outcome of the intent-classifier call per question, the raw text the
language model returns per prompt, the SBERT cosine similarity, the graph
lookup per topic value, the vector search per query, the facts driver, the
set ordering of this process, the id2text chunk map, and the uuid drawn
when no conversation id is supplied. -/
structure Collab where
  llm_cls : String → LLMOutcome
  llm_text : String → String
  sim : String → String → Rat
  kgNodes : PyVal → Except Unit (List String)
  ragSearch : String → List (String × String)
  factsDriver : List String → Except Unit (List Fact)
  setOrd : List String → List String
  id2text : String → Option String
  fresh_uuid : String

/-- retrieve of chatbot_backend.py lines 166-174: run hybrid_retrieve, strip
any Chunk:: marker from each returned id, and build the prompt list and the
preview list (text[:400]). -/
def retrieve (c : Collab) (query : String) (topic : PyVal) :
    Except Unit (List (String × String) × List Fact × List (String × String)) :=
  match hybrid_retrieve (c.kgNodes topic) (c.ragSearch query) c.factsDriver c.setOrd c.id2text with
  | Except.error e => Except.error e
  | Except.ok (chunks, kg_facts) =>
    let cut := chunks.map (fun p => (pyReplace p.1 "Chunk::" "", p.2))
    Except.ok (cut, kg_facts, cut.map (fun p => (p.1, pyTake p.2 400)))

/-- The prompt of rewrite_followup (chatbot_backend.py lines 89-100). -/
def rewritePrompt (prev q : String) : String :=
  "\nRewrite this follow-up into a complete RBI regulatory question.\n\nPREVIOUS ANSWER:\n"
    ++ prev ++ "\n\nFOLLOW-UP:\n" ++ q ++ "\n\nReturn ONLY the rewritten question.\n"

/-- The chit-chat prompt of the /ask handler (line 230). -/
def chatPrompt (q : String) : String := "You are friendly. Reply briefly to: " ++ q

/-- build_llm_prompt of chatbot_backend.py lines 177-192. -/
def build_llm_prompt (setOrd : List String → List String) (q : String)
    (chunks : List (String × String)) (kg_facts : List Fact) (prev : String) : String :=
  "\nSYSTEM:\nYou are an RBI regulatory assistant.\nUse ONLY the provided context.\n"
    ++ "If info is missing say so.\n\nPREVIOUS ANSWER:\n"
    ++ (if prev = "" then "(none)" else prev) ++ "\n\n"
    ++ build_prompt setOrd q chunks kg_facts ++ "\n\nTASK:\nAnswer precisely.\n"

/-- The fixed no-evidence answer of the /ask handler (line 243). -/
def notFoundMsg : String := "I cannot find this information in the provided RBI documents."

/-- The conversation id of a request: the supplied id, or a fresh uuid when
none is supplied (Python or-truthiness also replaces an empty string). -/
def askCid (c : Collab) (req : AskReq) : String :=
  match req.conversation_id with
  | some s => if s = "" then c.fresh_uuid else s
  | none => c.fresh_uuid

/-- The memory after the optional clear step of the handler. -/
def askMem0 (c : Collab) (req : AskReq) (mem : Memory) : Memory :=
  if req.clear then memPop mem (askCid c req) else mem

/-- The (intent, topic) pair the handler computes at line 224. -/
def askIntentTopic (c : Collab) (req : AskReq) : PyVal × PyVal :=
  llm_intent (pyStrip req.question) (c.llm_cls (pyStrip req.question))

/-- The question the retrieval stage receives: the stripped question, or its
rewrite when is_followup fires (lines 237-238); call_llm strips the reply. -/
def askQ (c : Collab) (req : AskReq) (mem : Memory) : String :=
  let q := pyStrip req.question
  let prev := memGet (askMem0 c req mem) (askCid c req)
  if is_followup c.sim prev q then pyStrip (c.llm_text (rewritePrompt prev q)) else q

/-- The /ask handler of chatbot_backend.py lines 212-256, as a function from
the request and the current conversation memory to a response and the
updated memory. -/
def ask (c : Collab) (req : AskReq) (mem : Memory) : Except AskErr (AskResp × Memory) :=
  if pyStrip req.question = "" then Except.error AskErr.badRequest
  else
    let cid := askCid c req
    let mem1 := askMem0 c req mem
    let q := pyStrip req.question
    let prev := memGet mem1 cid
    if (askIntentTopic c req).1 = PyVal.str "chit_chat" then
      let reply := pyStrip (c.llm_text (chatPrompt q))
      Except.ok (⟨cid, reply, [], []⟩, memSet mem1 cid reply)
    else
      match retrieve c (askQ c req mem) (askIntentTopic c req).2 with
      | Except.error _ => Except.error AskErr.retrievalDown
      | Except.ok (chunks, kg_facts, used) =>
        if chunks.isEmpty && kg_facts.isEmpty then
          Except.ok (⟨cid, notFoundMsg, [], []⟩, memSet mem1 cid notFoundMsg)
        else
          let answer := pyStrip (c.llm_text (build_llm_prompt c.setOrd (askQ c req mem) chunks kg_facts prev))
          Except.ok (⟨cid, answer, used, kg_facts⟩, memSet mem1 cid answer)

/-- A facts driver that answers every query with no relation rows. -/
def drv0 : List String → Except Unit (List Fact) := fun _ => Except.ok []

/-- An id2text chunk map with no entries. -/
def m0 : String → Option String := fun _ => none

/-- A constant zero similarity oracle. -/
def simZero : String → String → Rat := fun _ _ => 0

/-- A constant similarity oracle at 0.9, the value used by the spec's
follow-up example. -/
def simHigh : String → String → Rat := fun _ _ => mkRat 9 10

/-- Two facts under one relation with two distinct labels. -/
def factsAB : List Fact :=
  [⟨"s1", "pertainsTo", "t1", "Label A"⟩, ⟨"s2", "pertainsTo", "t2", "Label B"⟩]

/-- One fact, so the relation group has a single label. -/
def factsA : List Fact := [⟨"s1", "pertainsTo", "t1", "Label A"⟩]

/-- A concrete collaborator assignment for concrete runs: the classifier
call always raises, the language model echoes its prompt, similarity is
zero, the graph returns no nodes, vector search returns nothing. -/
def c0 : Collab :=
  ⟨fun _ => LLMOutcome.exn, fun s => s, simZero, fun _ => Except.ok [],
   fun _ => [], drv0, pySetKeep, m0, "uuid-1"⟩

/-- A concrete request carrying a domain keyword and a conversation id. -/
def req0 : AskReq := ⟨"loan cap details", some "conv1", false⟩

section Helpers

open ReguGraph

/-- A permutation of a list with at most one element is that list. -/
lemma perm_eq_of_short {l l2 : List String} (h : List.Perm l l2) (hl : l2.length ≤ 1) :
    l = l2 := by
  match l2, hl with
  | [], _ => exact List.perm_nil.mp h
  | [a], _ => exact List.perm_singleton.mp h

/-- First-occurrence order is an admissible set ordering. -/
lemma pySetKeep_valid : PySetOrder pySetKeep := fun _ => List.Perm.refl _

/-- Reversed first-occurrence order is an admissible set ordering. -/
lemma pySetFlip_valid : PySetOrder pySetFlip := fun xs => List.reverse_perm xs.dedup

/-- Reading back the key just written into the conversation map yields the
value written. -/
lemma memGet_memSet (m : Memory) (cid v : String) :
    memGet (memSet m cid v) cid = v := by
  induction m with
  | nil => simp [memSet, memGet, List.find?]
  | cons p t ih =>
    by_cases h : p.1 = cid
    · simp [memSet, h, memGet, List.find?]
    · have hb : (p.1 == cid) = false := by
        simpa using h
      simp only [memSet, if_neg h, memGet, List.find?, hb]
      exact ih

/-- The normalisation loop is the strip map over the kept identifiers. -/
lemma normalizedKg_eq (ids : List String) :
    normalizedKg ids = (ids.filter keepId).map stripId := by
  induction ids with
  | nil => rfl
  | cons x t ih =>
    by_cases h1 : strStartsWith x "Chunk::" = true
    · have hk : keepId x = true := by simp [keepId, h1]
      simp [normalizedKg, List.filterMap_cons, List.filter_cons, h1, hk, stripId,
        ← ih, normalizedKg]
    · by_cases h2 : strStartsWith x "Clause::" = true
      · have hk : keepId x = true := by simp [keepId, h2]
        simp [normalizedKg, List.filterMap_cons, List.filter_cons, h1, h2, hk, stripId,
          ← ih, normalizedKg]
      · have hk : keepId x = false := by simp [keepId, h1, h2]
        simp [normalizedKg, List.filterMap_cons, List.filter_cons, h1, h2, hk,
          ← ih, normalizedKg]

/-- Identifiers without a kept kind marker do not change the normalisation. -/
lemma normalizedKg_filter (ids : List String) :
    normalizedKg (ids.filter keepId) = normalizedKg ids := by
  rw [normalizedKg_eq, normalizedKg_eq, List.filter_filter]
  simp

/-- Shape of every successful hybrid_retrieve run: the chunk list is the
merged identifier list paired with the id2text lookup, and the fact list is
the successful facts fetch over the re-marked merged list. -/
lemma hybrid_ok_inv (kgids : List String) (rag : List (String × String))
    (driver : List String → Except Unit (List Fact))
    (setOrd : List String → List String) (m : String → Option String)
    (chunks : List (String × String)) (facts : List Fact)
    (h : hybrid_retrieve (Except.ok kgids) rag driver setOrd m = Except.ok (chunks, facts)) :
    chunks = (setOrd (normalizedKg kgids ++ rag.map Prod.fst)).map
        (fun cid => (cid, (m cid).getD ""))
    ∧ get_kg_facts driver ((setOrd (normalizedKg kgids ++ rag.map Prod.fst)).map
        (fun cid => "Chunk::" ++ cid)) = Except.ok facts := by
  unfold hybrid_retrieve at h
  revert h
  cases hf : get_kg_facts driver ((setOrd (normalizedKg kgids ++ rag.map Prod.fst)).map
      (fun cid => "Chunk::" ++ cid)) with
  | error e => intro h; exact absurd h (by simp [hf])
  | ok f =>
    intro h
    simp only [hf] at h
    obtain ⟨h1, h2⟩ := Prod.mk.injEq _ _ _ _ ▸ Except.ok.inj h
    exact ⟨h1.symm, by rw [h2]⟩

end Helpers

/-- Claim C1, as stated, is false at this input: the classifier reply parses
as a JSON object that omits the topic field, and llm_intent returns intent
rbi_query with a null topic. -/
theorem llm_intent_null_topic_cex :
    (llm_intent "what is the weather"
        (LLMOutcome.parsed [("intent", JValue.jstr "rbi_query")])).1 = PyVal.str "rbi_query"
    ∧ (llm_intent "what is the weather"
        (LLMOutcome.parsed [("intent", JValue.jstr "rbi_query")])).2 = PyVal.null := by
  decide

/-- Claim C1 (amended): llm_intent is total and, whenever it returns intent
rbi_query with a null topic, the collaborator response must have parsed as a
JSON object that omits or nulls the topic field; on every path that does not
consume a parsed object the result is either (chit_chat, null) or rbi_query
with the non-null keyword-fallback topic. -/
theorem llm_intent_fail_safe (q : String) (o : LLMOutcome) :
    ((llm_intent q o).1 = PyVal.str "rbi_query" → (llm_intent q o).2 = PyVal.null →
      ∃ d, o = LLMOutcome.parsed d
        ∧ (jGet d "topic" = none ∨ jGet d "topic" = some JValue.jnull))
    ∧ ((∀ d, o ≠ LLMOutcome.parsed d) →
      (llm_intent q o = (PyVal.str "chit_chat", PyVal.null)
       ∨ llm_intent q o = (PyVal.str "rbi_query", PyVal.str (detect_topic_fallback q)))) := by
  constructor
  · intro h1 h2
    unfold llm_intent at h1 h2
    by_cases hgr : isGreeting (pyStrip (pyLower q)) = true
    · simp [hgr] at h1
    · by_cases hkw : hasIntentKeyword (pyStrip (pyLower q)) = true
      · simp [hgr, hkw] at h2
      · cases o with
        | parsed d =>
          refine ⟨d, rfl, ?_⟩
          simp only [hgr, hkw, Bool.false_eq_true, if_false] at h2
          unfold pyGetOpt at h2
          cases hj : jGet d "topic" with
          | none => exact Or.inl rfl
          | some v =>
            cases v with
            | jstr s => rw [hj] at h2; simp at h2
            | jnull => exact Or.inr rfl
        | exn => simp [hgr, hkw] at h2
        | noMatch => simp [hgr, hkw] at h2
        | parseError => simp [hgr, hkw] at h2
  · intro hnp
    unfold llm_intent
    by_cases hgr : isGreeting (pyStrip (pyLower q)) = true
    · left; simp [hgr]
    · by_cases hkw : hasIntentKeyword (pyStrip (pyLower q)) = true
      · right; simp [hgr, hkw]
      · cases o with
        | parsed d => exact absurd rfl (hnp d)
        | exn => right; simp [hgr, hkw]
        | noMatch => right; simp [hgr, hkw]
        | parseError => right; simp [hgr, hkw]

/-- Witness for the amended claim C1 at concrete inputs: a parsed reply
omitting the topic, and a raised classifier call. -/
theorem llm_intent_fail_safe_wit :
    (∃ d, LLMOutcome.parsed [("intent", JValue.jstr "rbi_query")] = LLMOutcome.parsed d
       ∧ (jGet d "topic" = none ∨ jGet d "topic" = some JValue.jnull))
    ∧ (llm_intent "how is tomorrow" LLMOutcome.exn = (PyVal.str "chit_chat", PyVal.null)
       ∨ llm_intent "how is tomorrow" LLMOutcome.exn
           = (PyVal.str "rbi_query", PyVal.str (detect_topic_fallback "how is tomorrow"))) :=
  ⟨(llm_intent_fail_safe "what is the weather"
      (LLMOutcome.parsed [("intent", JValue.jstr "rbi_query")])).1 (by decide) (by decide),
   (llm_intent_fail_safe "how is tomorrow" LLMOutcome.exn).2
      (fun d h => LLMOutcome.noConfusion h)⟩

/-- Claim C2, as stated, is false at this input: with the graph collaborator
down and a non-empty vector result available, hybrid_retrieve does not
return a vector-only result; it propagates the failure. -/
theorem hybrid_graph_down_cex :
    hybrid_retrieve (Except.error ()) [("c1", "text one")] drv0 pySetKeep m0 = Except.error ()
    ∧ (hybrid_retrieve (Except.error ()) [("c1", "text one")] drv0 pySetKeep m0).isOk = false :=
  ⟨rfl, rfl⟩

/-- Claim C2 (amended): the RetrievalUnavailable failure of the graph
expansion call is not caught by hybrid_retrieve; it propagates unchanged,
whatever the vector search returned, aborting the request. -/
theorem hybrid_graph_down_propagates (rag : List (String × String))
    (driver : List String → Except Unit (List Fact))
    (setOrd : List String → List String) (m : String → Option String) :
    hybrid_retrieve (Except.error ()) rag driver setOrd m = Except.error () := rfl

/-- Claim C3, as stated, is false: two admissible per-process set orderings
give byte-different prompts on identical (question, fragments, facts)
inputs, because build_prompt renders each relation's labels in the order
list(set(...)) happens to produce. -/
theorem build_prompt_set_order_cex :
    build_prompt pySetKeep "q" [] factsAB ≠ build_prompt pySetFlip "q" [] factsAB := by
  decide

/-- Claim C3 (amended): build_prompt has no randomness of its own; its
output is determined by the inputs together with the set-iteration order of
the process, and whenever every relation group carries at most one distinct
label the output is byte-identical across any two admissible orderings. -/
theorem build_prompt_det_amended (f g : List String → List String)
    (hf : PySetOrder f) (hg : PySetOrder g) (q : String)
    (chunks : List (String × String)) (kg_facts : List Fact)
    (hu : ∀ p ∈ groupFacts kg_facts, p.2.dedup.length ≤ 1) :
    build_prompt f q chunks kg_facts = build_prompt g q chunks kg_facts := by
  unfold build_prompt
  have he : (groupFacts kg_facts).map (fun p => (p.1, f p.2))
      = (groupFacts kg_facts).map (fun p => (p.1, g p.2)) := by
    apply List.map_congr_left
    intro p hp
    have e1 : f p.2 = p.2.dedup := perm_eq_of_short (hf p.2) (hu p hp)
    have e2 : g p.2 = p.2.dedup := perm_eq_of_short (hg p.2) (hu p hp)
    rw [e1, e2]
  rw [he]

/-- Witness for the amended claim C3: with a single label in the only
relation group, the two orderings agree byte for byte. -/
theorem build_prompt_det_amended_wit :
    build_prompt pySetKeep "q" [] factsA = build_prompt pySetFlip "q" [] factsA :=
  build_prompt_det_amended pySetKeep pySetFlip pySetKeep_valid pySetFlip_valid
    "q" [] factsA (by decide)

/-- Claim C4: is_followup returns false on an empty previous answer; with a
non-empty previous answer it returns true on a phrase match; otherwise for
questions of at most 4 whitespace tokens it returns the comparison of the
similarity oracle against the 0.55 threshold, and for longer questions it
returns false regardless of similarity. -/
theorem is_followup_cases (sim : String → String → Rat) (prev q : String) :
    (prev = "" → is_followup sim prev q = false)
    ∧ (prev ≠ "" → hasFollowupPhrase q = true → is_followup sim prev q = true)
    ∧ (prev ≠ "" → hasFollowupPhrase q = false → (pyWords q).length ≤ 4 →
        is_followup sim prev q = decide (mkRat 11 20 < sim prev q))
    ∧ (prev ≠ "" → hasFollowupPhrase q = false → 4 < (pyWords q).length →
        is_followup sim prev q = false) := by
  refine ⟨?_, ?_, ?_, ?_⟩
  · intro h; simp [is_followup, h]
  · intro h1 h2; simp [is_followup, h1, h2]
  · intro h1 h2 h3; simp [is_followup, h1, h2, h3]
  · intro h1 h2 h3
    have h4 : ¬((pyWords q).length ≤ 4) := Nat.not_le.mpr h3
    simp [is_followup, h1, h2, h4]

/-- Witness for claim C4: at similarity 0.9 a 3-word question after a
non-empty answer is a follow-up and a 10-word question is not. -/
theorem is_followup_cases_wit :
    is_followup simHigh "previous answer text" "what about it" = true
    ∧ is_followup simHigh "previous answer text"
        "please list the gold rules for all small banks now" = false := by
  constructor
  · have h := (is_followup_cases simHigh "previous answer text" "what about it").2.2.1
      (by decide) (by decide) (by decide)
    rw [h]; decide
  · exact (is_followup_cases simHigh "previous answer text"
      "please list the gold rules for all small banks now").2.2.2
      (by decide) (by decide) (by decide)

/-- Claim C5: a successful merge produces a duplicate-free candidate list
whose members are exactly the union of the normalised graph identifiers and
the vector-search identifiers, with the fact list fetched for exactly that
union; and with both sources empty the result is (empty, empty), not an
error. -/
theorem hybrid_merge_union (kgids : List String) (rag : List (String × String))
    (driver : List String → Except Unit (List Fact))
    (setOrd : List String → List String) (m : String → Option String)
    (hs : PySetOrder setOrd) :
    (∀ chunks facts,
       hybrid_retrieve (Except.ok kgids) rag driver setOrd m = Except.ok (chunks, facts) →
       ((chunks.map Prod.fst).Nodup
        ∧ (∀ x, x ∈ chunks.map Prod.fst ↔ (x ∈ normalizedKg kgids ∨ x ∈ rag.map Prod.fst))
        ∧ get_kg_facts driver (chunks.map (fun p => "Chunk::" ++ p.1)) = Except.ok facts))
    ∧ hybrid_retrieve (Except.ok []) [] driver setOrd m = Except.ok ([], []) := by
  constructor
  · intro chunks facts h
    obtain ⟨hc, hfacts⟩ := hybrid_ok_inv _ _ _ _ _ _ _ h
    have hperm := hs (normalizedKg kgids ++ rag.map Prod.fst)
    have hmap : chunks.map Prod.fst = setOrd (normalizedKg kgids ++ rag.map Prod.fst) := by
      rw [hc, List.map_map]; simp only [Function.comp_def, List.map_id']
    refine ⟨?_, ?_, ?_⟩
    · rw [hmap]; exact (hperm.nodup_iff).mpr (List.nodup_dedup _)
    · intro x
      rw [hmap, hperm.mem_iff, List.mem_dedup, List.mem_append]
    · rw [hc, List.map_map]
      have hfun : ((fun p : String × String => "Chunk::" ++ p.1)
          ∘ (fun cid => (cid, (m cid).getD ""))) = fun cid => "Chunk::" ++ cid := by
        funext cid; rfl
      rw [hfun]
      exact hfacts
  · have h0 : setOrd ([] : List String) = [] := by
      have := hs []
      simpa using List.perm_nil.mp (by simpa using this)
    simp [hybrid_retrieve, normalizedKg, get_kg_facts, h0]

/-- Witness for claim C5 at a concrete successful merge with one graph
fragment and one vector fragment. -/
theorem hybrid_merge_union_wit :
    ((([("A", ""), ("B", "")] : List (String × String)).map Prod.fst).Nodup
     ∧ (∀ x, x ∈ ([("A", ""), ("B", "")] : List (String × String)).map Prod.fst
          ↔ (x ∈ normalizedKg ["Chunk::A"]
              ∨ x ∈ ([("B", "tb")] : List (String × String)).map Prod.fst))
     ∧ get_kg_facts drv0 (([("A", ""), ("B", "")] : List (String × String)).map
          (fun p => "Chunk::" ++ p.1)) = Except.ok [])
    ∧ hybrid_retrieve (Except.ok []) [] drv0 pySetKeep m0 = Except.ok ([], []) := by
  have h := hybrid_merge_union ["Chunk::A"] [("B", "tb")] drv0 pySetKeep m0 pySetKeep_valid
  exact ⟨h.1 [("A", ""), ("B", "")] [] (by decide), h.2⟩

/-- Claim C6: in every successful merge each candidate identifier appears
exactly once and is paired with exactly the id2text lookup of that
identifier, empty string when the map has no entry; the lookup is total, so
a missing identifier can never fail the request. -/
theorem hybrid_lookup_total (kgids : List String) (rag : List (String × String))
    (driver : List String → Except Unit (List Fact))
    (setOrd : List String → List String) (m : String → Option String)
    (chunks : List (String × String)) (facts : List Fact)
    (hs : PySetOrder setOrd)
    (h : hybrid_retrieve (Except.ok kgids) rag driver setOrd m = Except.ok (chunks, facts)) :
    (chunks.map Prod.fst).Nodup ∧ ∀ p ∈ chunks, p.2 = (m p.1).getD "" := by
  obtain ⟨hc, _⟩ := hybrid_ok_inv _ _ _ _ _ _ _ h
  constructor
  · have hperm := hs (normalizedKg kgids ++ rag.map Prod.fst)
    have hmap : chunks.map Prod.fst = setOrd (normalizedKg kgids ++ rag.map Prod.fst) := by
      rw [hc, List.map_map]; simp only [Function.comp_def, List.map_id']
    rw [hmap]; exact (hperm.nodup_iff).mpr (List.nodup_dedup _)
  · intro p hp
    rw [hc] at hp
    obtain ⟨cid, _, rfl⟩ := List.mem_map.mp hp
    rfl

/-- Witness for claim C6 at a concrete successful merge whose vector
identifier is missing from the id2text map. -/
theorem hybrid_lookup_total_wit :
    ((([("A", ""), ("B", "")] : List (String × String)).map Prod.fst).Nodup
     ∧ ∀ p ∈ ([("A", ""), ("B", "")] : List (String × String)), p.2 = (m0 p.1).getD "") :=
  hybrid_lookup_total ["Chunk::A"] [("B", "tb")] drv0 pySetKeep m0
    [("A", ""), ("B", "")] [] pySetKeep_valid (by decide)

/-- Claim C7: get_kg_facts on an empty identifier list answers an empty
fact list whatever the driver would do, so no round-trip is issued. -/
theorem get_kg_facts_empty (driver : List String → Except Unit (List Fact)) :
    get_kg_facts driver [] = Except.ok [] := rfl

/-- Claim C8: when the handler reaches retrieval and it succeeds with no
candidate fragments and no facts, /ask answers the fixed not-found text as
a normal response, and the conversation map afterwards holds that answer
under the request's conversation identifier. -/
theorem ask_no_evidence (c : Collab) (req : AskReq) (mem : Memory)
    (hq : pyStrip req.question ≠ "")
    (hi : (askIntentTopic c req).1 ≠ PyVal.str "chit_chat")
    (hr : retrieve c (askQ c req mem) (askIntentTopic c req).2 = Except.ok ([], [], [])) :
    ask c req mem
      = Except.ok (⟨askCid c req, notFoundMsg, [], []⟩,
          memSet (askMem0 c req mem) (askCid c req) notFoundMsg)
    ∧ memGet (memSet (askMem0 c req mem) (askCid c req) notFoundMsg) (askCid c req)
        = notFoundMsg := by
  refine ⟨?_, memGet_memSet _ _ _⟩
  unfold ask
  rw [if_neg hq, if_neg hi, hr]
  rfl

/-- Witness for claim C8: a keyword question with every retrieval source
empty gets the fixed not-found answer and the updated map. -/
theorem ask_no_evidence_wit :
    ask c0 req0 []
      = Except.ok (⟨askCid c0 req0, notFoundMsg, [], []⟩,
          memSet (askMem0 c0 req0 []) (askCid c0 req0) notFoundMsg)
    ∧ memGet (memSet (askMem0 c0 req0 []) (askCid c0 req0) notFoundMsg) (askCid c0 req0)
        = notFoundMsg :=
  ask_no_evidence c0 req0 [] (by decide) (by decide) (by decide)

/-- Claim C9: phrase matching is raw substring search on the lower-cased
question, so the word against triggers the configured phrase again, and a
9-token question is classified as a follow-up for every similarity oracle,
bypassing both the 4-token gate and the similarity computation. -/
theorem followup_phrase_raw_substring (sim : String → String → Rat) (prev : String)
    (hprev : prev ≠ "") :
    is_followup sim prev "what rules protect lenders against borrower default in india" = true
    ∧ 4 < (pyWords "what rules protect lenders against borrower default in india").length := by
  constructor
  · have h : hasFollowupPhrase
        "what rules protect lenders against borrower default in india" = true := by decide
    simp [is_followup, hprev, h]
  · decide

/-- Witness for claim C9 with a zero similarity oracle. -/
theorem followup_phrase_raw_substring_wit :
    is_followup simZero "x" "what rules protect lenders against borrower default in india" = true
    ∧ 4 < (pyWords "what rules protect lenders against borrower default in india").length :=
  followup_phrase_raw_substring simZero "x" (by decide)

/-- Claim C10: identifiers from graph expansion bearing neither the Chunk::
nor the Clause:: marker are silently dropped: filtering them away changes
nothing in the merge result, and such an identifier can be a member of the
candidate list only by coinciding with a vector-search identifier or with
the stripped form of some kept identifier. -/
theorem hybrid_discards_unmarked (kgids : List String) (rag : List (String × String))
    (driver : List String → Except Unit (List Fact))
    (setOrd : List String → List String) (m : String → Option String)
    (hs : PySetOrder setOrd) :
    hybrid_retrieve (Except.ok kgids) rag driver setOrd m
      = hybrid_retrieve (Except.ok (kgids.filter keepId)) rag driver setOrd m
    ∧ (∀ chunks facts,
        hybrid_retrieve (Except.ok kgids) rag driver setOrd m = Except.ok (chunks, facts) →
        ∀ nid, keepId nid = false → nid ∈ chunks.map Prod.fst →
          (nid ∈ rag.map Prod.fst
           ∨ ∃ x, x ∈ kgids ∧ keepId x = true ∧ stripId x = nid)) := by
  constructor
  · simp only [hybrid_retrieve, normalizedKg_filter]
  · intro chunks facts h nid _ hmem
    obtain ⟨hc, _⟩ := hybrid_ok_inv _ _ _ _ _ _ _ h
    have hmap : chunks.map Prod.fst = setOrd (normalizedKg kgids ++ rag.map Prod.fst) := by
      rw [hc, List.map_map]; simp only [Function.comp_def, List.map_id']
    rw [hmap] at hmem
    have hm2 := ((hs _).mem_iff).mp hmem
    rw [List.mem_dedup, List.mem_append] at hm2
    cases hm2 with
    | inr hr => exact Or.inl hr
    | inl hn =>
      rw [normalizedKg_eq] at hn
      obtain ⟨x, hx, hsx⟩ := List.mem_map.mp hn
      obtain ⟨hx1, hx2⟩ := List.mem_filter.mp hx
      exact Or.inr ⟨x, hx1, hx2, hsx⟩

/-- Witness for claim C10: dropping the unmarked Topic::X identifier leaves
the merge result unchanged. -/
theorem hybrid_discards_unmarked_wit :
    hybrid_retrieve (Except.ok ["Topic::X", "Chunk::A"]) [] drv0 pySetKeep m0
      = hybrid_retrieve (Except.ok ((["Topic::X", "Chunk::A"] : List String).filter keepId))
          [] drv0 pySetKeep m0 :=
  (hybrid_discards_unmarked ["Topic::X", "Chunk::A"] [] drv0 pySetKeep m0 pySetKeep_valid).1

end ReguGraph
